import Mathlib

/-!
Verification of the Sleeper Home Assistant integration core
(`custom_components/sleeper`): record types and snapshot builder
(`models.py`), adaptive polling scheduler and refresh orchestrator
(`coordinator.py`), and matchup resolution (`sensor.py`).

Numbers: Python `int` is modelled as `Int`, fractional point values as `ℚ`
(they are always of the form `whole + hundredths/100`, exact in `ℚ`).
Python dicts are modelled by their lookup semantics: iterating the
insertions in order with later assignments overwriting earlier ones.
API payloads are loosely-typed key/value records; a field is modelled as
`Option T` when the code reads it with `dict.get(key, default)` (absent vs
present) and as `Option (Option T)` when the code reads it with
`dict.get(key) or default` (absent vs JSON-null vs present), which is the
shape the code is written to handle.
-/

namespace Sleeper

/-- Payload for `NflState.from_api`: fields read with `data.get(k, default)`. -/
structure NflStatePayload where
  week : Option Int
  season : Option String
  season_type : Option String
deriving DecidableEq

/-- `models.py` `NflState`. -/
structure NflState where
  week : Int
  season : String
  season_type : String
deriving DecidableEq

/-- `NflState.from_api` (models.py lines 17-24). -/
def NflState.from_api (data : NflStatePayload) : NflState :=
  { week := data.week.getD 1
    season := data.season.getD ""
    season_type := data.season_type.getD "off" }

/-- Payload for `LeagueInfo.from_api`. -/
structure LeagueInfoPayload where
  league_id : Option String
  name : Option String
  status : Option String
  season : Option String
  total_rosters : Option Int
deriving DecidableEq

/-- `models.py` `LeagueInfo`. -/
structure LeagueInfo where
  league_id : String
  name : String
  status : String
  season : String
  total_rosters : Int
deriving DecidableEq

/-- `LeagueInfo.from_api` (models.py lines 37-46). -/
def LeagueInfo.from_api (data : LeagueInfoPayload) : LeagueInfo :=
  { league_id := data.league_id.getD ""
    name := data.name.getD ""
    status := data.status.getD ""
    season := data.season.getD ""
    total_rosters := data.total_rosters.getD 0 }

/-- The `settings` sub-payload of a roster: every field is read with
`settings.get(k) or 0`, so absent and null both resolve to `0`. -/
structure RosterSettingsPayload where
  wins : Option (Option Int)
  losses : Option (Option Int)
  ties : Option (Option Int)
  fpts : Option (Option Int)
  fpts_decimal : Option (Option Int)
  fpts_against : Option (Option Int)
  fpts_against_decimal : Option (Option Int)
  waiver_position : Option (Option Int)
  total_moves : Option (Option Int)
deriving DecidableEq

/-- The all-absent `settings` payload (`{}` in Python). -/
def RosterSettingsPayload.empty : RosterSettingsPayload :=
  ⟨none, none, none, none, none, none, none, none, none⟩

/-- Python `x or 0` applied to an absent / null / integer dict value. -/
def orZero (v : Option (Option Int)) : Int :=
  ((v.getD none).getD 0)

/-- Payload for `Roster.from_api`. `owner_id` is read with `data.get("owner_id")`
where absent and JSON-null both yield Python `None`, hence a single `Option`;
`settings` is read with `data.get("settings") or {}`. -/
structure RosterPayload where
  roster_id : Option Int
  owner_id : Option String
  settings : Option (Option RosterSettingsPayload)
deriving DecidableEq

/-- `models.py` `Roster`. -/
structure Roster where
  roster_id : Int
  owner_id : Option String
  wins : Int
  losses : Int
  ties : Int
  fpts : ℚ
  fpts_against : ℚ
  waiver_position : Int
  total_moves : Int
deriving DecidableEq

/-- `Roster.from_api` (models.py lines 63-82). -/
def Roster.from_api (data : RosterPayload) : Roster :=
  let settings := (data.settings.getD none).getD RosterSettingsPayload.empty
  let fpts_int := orZero settings.fpts
  let fpts_dec := orZero settings.fpts_decimal
  let fpts_against_int := orZero settings.fpts_against
  let fpts_against_dec := orZero settings.fpts_against_decimal
  { roster_id := data.roster_id.getD 0
    owner_id := data.owner_id
    wins := orZero settings.wins
    losses := orZero settings.losses
    ties := orZero settings.ties
    fpts := (fpts_int : ℚ) + (fpts_dec : ℚ) / 100
    fpts_against := (fpts_against_int : ℚ) + (fpts_against_dec : ℚ) / 100
    waiver_position := orZero settings.waiver_position
    total_moves := orZero settings.total_moves }

/-- The `metadata` sub-payload of a league user. -/
structure UserMetadataPayload where
  team_name : Option String
deriving DecidableEq

/-- Payload for `LeagueUser.from_api`; `metadata` is read with
`data.get("metadata") or {}`. -/
structure LeagueUserPayload where
  user_id : Option String
  display_name : Option String
  metadata : Option (Option UserMetadataPayload)
deriving DecidableEq

/-- `models.py` `LeagueUser`. -/
structure LeagueUser where
  user_id : String
  display_name : String
  team_name : Option String
deriving DecidableEq

/-- `LeagueUser.from_api` (models.py lines 93-101). -/
def LeagueUser.from_api (data : LeagueUserPayload) : LeagueUser :=
  let metadata := (data.metadata.getD none).getD ⟨none⟩
  { user_id := data.user_id.getD ""
    display_name := data.display_name.getD ""
    team_name := metadata.team_name }

/-- Python `x or 0.0` applied to an absent / null / numeric dict value. -/
def orZeroQ (v : Option (Option ℚ)) : ℚ :=
  ((v.getD none).getD 0)

/-- Payload for `Matchup.from_api`; `matchup_id` is read with
`data.get("matchup_id")` (absent and null both give `None`), `points` with
`data.get("points") or 0.0`. -/
structure MatchupPayload where
  roster_id : Option Int
  matchup_id : Option Int
  points : Option (Option ℚ)
deriving DecidableEq

/-- `models.py` `Matchup`. -/
structure Matchup where
  roster_id : Int
  matchup_id : Option Int
  points : ℚ
deriving DecidableEq

/-- `Matchup.from_api` (models.py lines 112-119). -/
def Matchup.from_api (data : MatchupPayload) : Matchup :=
  { roster_id := data.roster_id.getD 0
    matchup_id := data.matchup_id
    points := orZeroQ data.points }

/-- Lookup in a Python dict built by inserting one entry per element of `l`
in order, with key `key a` and value `val a`: the last insertion for a key
wins. Models both the `user_by_id` dict comprehension and the
`roster_to_user` assignment loop in `SleeperData.build`. -/
def pyDictGet {α κ β : Type} [DecidableEq κ] (key : α → κ) (val : α → β)
    (l : List α) (k : κ) : Option β :=
  l.foldl (fun acc a => if key a = k then some (val a) else acc) none

/-- The `user_by_id` dict of `SleeperData.build` (models.py line 147),
looked up at a user id. -/
def user_by_id (users : List LeagueUser) (uid : String) : Option LeagueUser :=
  pyDictGet (fun u => u.user_id) (fun u => u) users uid

/-- The placeholder owner (models.py line 148). -/
def placeholder : LeagueUser :=
  { user_id := "", display_name := "Unknown", team_name := none }

/-- The loop body of models.py lines 151-155: the value assigned to
`roster_to_user[roster.roster_id]` for one roster. Python truthiness:
`roster.owner_id` is truthy only when it is a present, non-empty string. -/
def resolve_owner (users : List LeagueUser) (roster : Roster) : LeagueUser :=
  match roster.owner_id with
  | none => placeholder
  | some oid =>
    if oid ≠ "" then
      match user_by_id users oid with
      | some u => u
      | none => placeholder
    else placeholder

/-- The sort key comparison of models.py lines 158-160:
`sorted(rosters, key=lambda r: (r.wins, r.fpts), reverse=True)` orders by
the tuple `(wins, fpts)` descending; `key_ge a b` says `a` may precede `b`. -/
def key_ge (a b : Roster) : Bool :=
  decide (b.wins < a.wins ∨ (a.wins = b.wins ∧ b.fpts ≤ a.fpts))

/-- `models.py` `SleeperData`. The `roster_to_user` dict is modelled by its
lookup function. -/
structure SleeperData where
  nfl_state : NflState
  league : LeagueInfo
  rosters : List Roster
  users : List LeagueUser
  matchups : List Matchup
  roster_to_user : Int → Option LeagueUser
  standings : List Int
  my_roster : Option Roster
  my_user : Option LeagueUser

/-- `SleeperData.build` (models.py lines 136-183). Python's `sorted` with
`reverse=True` is the stable sort by the reversed key order, i.e.
`mergeSort` with `key_ge`; `if user_id:` is Python truthiness (a present,
non-empty string). -/
def SleeperData.build (nfl_state : NflState) (league : LeagueInfo)
    (rosters : List Roster) (users : List LeagueUser)
    (matchups : List Matchup) (user_id : Option String) : SleeperData :=
  let roster_to_user : Int → Option LeagueUser :=
    pyDictGet (fun r => r.roster_id) (resolve_owner users) rosters
  let sorted_rosters := rosters.mergeSort key_ge
  let standings := sorted_rosters.map (fun r => r.roster_id)
  let viewer : Option LeagueUser × Option Roster :=
    match user_id with
    | none => (none, none)
    | some uid =>
      if uid ≠ "" then
        (user_by_id users uid,
         rosters.find? (fun r => decide (r.owner_id = some uid)))
      else (none, none)
  { nfl_state := nfl_state
    league := league
    rosters := rosters
    users := users
    matchups := matchups
    roster_to_user := roster_to_user
    standings := standings
    my_roster := viewer.2
    my_user := viewer.1 }

/-- Abstract result of `_my_matchup_state` (sensor.py): either the `"BYE"`
state or the rendered `f"{my_points} - {m.points}"` score, kept as the pair
of points rather than its string rendering. -/
inductive MatchupResult where
  | bye : MatchupResult
  | score (mine opp : ℚ) : MatchupResult
deriving DecidableEq

/-- `_my_matchup_state` (sensor.py lines 76-97). The two `for`/`break`
loops are first-match scans (`find?`); Python's `m.matchup_id == my_matchup_id`
with `my_matchup_id : int` holds only for an entry whose `matchup_id` is
that integer (never for `None`). -/
def my_matchup_state (data : SleeperData) : Option MatchupResult :=
  match data.my_roster with
  | none => none
  | some my =>
    match data.matchups.find? (fun m => decide (m.roster_id = my.roster_id)) with
    | none => some .bye
    | some e =>
      match e.matchup_id with
      | none => some .bye
      | some mid =>
        match data.matchups.find?
            (fun m => decide (m.matchup_id = some mid ∧ m.roster_id ≠ my.roster_id)) with
        | none => some .bye
        | some s => some (.score e.points s.points)

/-! Scheduler (`coordinator.py`). Intervals are modelled in minutes. -/

/-- `const.py`: `UPDATE_INTERVAL_GAME_WINDOW = timedelta(minutes=5)`. -/
def UPDATE_INTERVAL_GAME_WINDOW : ℕ := 5

/-- `const.py`: `UPDATE_INTERVAL_GAME_DAY = timedelta(minutes=15)`. -/
def UPDATE_INTERVAL_GAME_DAY : ℕ := 15

/-- `const.py`: `UPDATE_INTERVAL_REGULAR = timedelta(hours=1)`. -/
def UPDATE_INTERVAL_REGULAR : ℕ := 60

/-- `const.py`: `UPDATE_INTERVAL_OFFSEASON = timedelta(hours=24)`. -/
def UPDATE_INTERVAL_OFFSEASON : ℕ := 1440

/-- `SleeperCoordinator._is_game_day` (coordinator.py lines 117-130).
`day_of_week` follows Python `datetime.weekday()`: 0 = Monday … 6 = Sunday. -/
def is_game_day (day_of_week : ℕ) (week : Int) (season_type : String) : Bool :=
  if day_of_week = 0 ∨ day_of_week = 3 ∨ day_of_week = 6 then true
  else if day_of_week = 5 ∧ (15 ≤ week ∨ season_type = "post") then true
  else false

/-- `SleeperCoordinator._is_in_game_window` (coordinator.py lines 132-157). -/
def is_in_game_window (day_of_week hour : ℕ) (week : Int)
    (season_type : String) : Bool :=
  if day_of_week = 3 ∧ 19 ≤ hour then true
  else if day_of_week = 6 ∧ 12 ≤ hour then true
  else if day_of_week = 0 ∧ 19 ≤ hour then true
  else if day_of_week = 5 ∧ 12 ≤ hour ∧ (15 ≤ week ∨ season_type = "post") then true
  else false

/-- `SleeperCoordinator._calculate_update_interval` (coordinator.py lines
94-115), with the Eastern-time instant `datetime.now(EASTERN)` abstracted
into its `(weekday, hour)` pair. -/
def calculate_update_interval (season_type : String) (week : Int)
    (day_of_week hour : ℕ) : ℕ :=
  if season_type = "off" then UPDATE_INTERVAL_OFFSEASON
  else if ¬(season_type = "regular" ∨ season_type = "post") then
    UPDATE_INTERVAL_REGULAR
  else if is_in_game_window day_of_week hour week season_type then
    UPDATE_INTERVAL_GAME_WINDOW
  else if is_game_day day_of_week week season_type then
    UPDATE_INTERVAL_GAME_DAY
  else UPDATE_INTERVAL_REGULAR

/-- Days of the week, named, for stating the specification's reference
definition of the scheduler. -/
inductive Weekday where
  | monday | tuesday | wednesday | thursday | friday | saturday | sunday
deriving DecidableEq

/-- Python `datetime.weekday()` numbering of a day: 0 = Monday … 6 = Sunday. -/
def Weekday.py : Weekday → ℕ
  | .monday => 0
  | .tuesday => 1
  | .wednesday => 2
  | .thursday => 3
  | .friday => 4
  | .saturday => 5
  | .sunday => 6

/-- Reference interval selection, written from the specification's words
(spec §4.3): off-season cadence for `off`; default cadence for season types
other than `regular`/`post`; else the game-window test, then the game-day
test, then the default. -/
def reference_interval (season_type : String) (week : Int) (d : Weekday)
    (hour : ℕ) : ℕ :=
  if season_type = "off" then 1440
  else if season_type ≠ "regular" ∧ season_type ≠ "post" then 60
  else if (d = .thursday ∧ 19 ≤ hour) ∨ (d = .sunday ∧ 12 ≤ hour) ∨
      (d = .monday ∧ 19 ≤ hour) ∨
      (d = .saturday ∧ 12 ≤ hour ∧ (15 ≤ week ∨ season_type = "post")) then 5
  else if d = .thursday ∨ d = .sunday ∨ d = .monday ∨
      (d = .saturday ∧ (15 ≤ week ∨ season_type = "post")) then 15
  else 60

/-! Refresh orchestrator (`coordinator.py` `_async_update_data`). -/

/-- The two error kinds of the fetch boundary (`api.py`):
`SleeperApiConnectionError` and `SleeperApiNotFoundError`. -/
inductive SleeperApiError where
  | connection : SleeperApiError
  | notFound : SleeperApiError
deriving DecidableEq

/-- The uniform `UpdateFailed` signal raised by the coordinator (the
message string is presentation only). -/
inductive UpdateError where
  | updateFailed : UpdateError
deriving DecidableEq

/-- The fetch boundary as an oracle: the outcome each `async_get_*` call
would produce during one refresh cycle. -/
structure FetchOracle where
  nfl_state : Except SleeperApiError NflState
  league : Except SleeperApiError LeagueInfo
  rosters : Except SleeperApiError (List Roster)
  users : Except SleeperApiError (List LeagueUser)
  matchups : Int → Except SleeperApiError (List Matchup)

/-- `SleeperCoordinator._async_update_data` (coordinator.py lines 54-92):
fetches in order, aborting on the first failure of either kind with the
uniform `UpdateFailed` signal; matchups are fetched only when the season
type is `regular` or `post`; on success the snapshot is built and the
stored update interval (`cur`, threaded as state) is recomputed for the
wall-clock `(day_of_week, hour)`. Returns the cycle outcome and the
coordinator's update interval after the cycle. -/
def async_update_data (o : FetchOracle) (user_id : Option String)
    (day_of_week hour : ℕ) (cur : ℕ) :
    Except UpdateError SleeperData × ℕ :=
  match o.nfl_state with
  | .error _ => (.error .updateFailed, cur)
  | .ok ns =>
    match o.league with
    | .error _ => (.error .updateFailed, cur)
    | .ok lg =>
      match o.rosters with
      | .error _ => (.error .updateFailed, cur)
      | .ok rs =>
        match o.users with
        | .error _ => (.error .updateFailed, cur)
        | .ok us =>
          match (if ns.season_type = "regular" ∨ ns.season_type = "post"
              then o.matchups ns.week else .ok []) with
          | .error _ => (.error .updateFailed, cur)
          | .ok ms =>
            (.ok (SleeperData.build ns lg rs us ms user_id),
             calculate_update_interval ns.season_type ns.week day_of_week hour)

/-- Coordinator viewer-id normalization (coordinator.py line 44):
`config_entry.data.get(CONF_USER_ID) or None` — an absent or empty
configured user id becomes `None`. -/
def coordinator_user_id (conf : Option String) : Option String :=
  match conf with
  | none => none
  | some s => if s = "" then none else some s

/-! ### Concrete fixtures for witnesses -/

/-- A regular-season state fixture. -/
def nsEx : NflState := ⟨2, "2024", "regular"⟩

/-- An off-season state fixture. -/
def nsOff : NflState := ⟨2, "2024", "off"⟩

/-- A league fixture. -/
def lgEx : LeagueInfo := ⟨"12345", "Test League", "in_season", "2024", 2⟩

/-- A league user fixture. -/
def uA : LeagueUser := ⟨"a", "Alice", none⟩

/-- A league user whose user id is the empty string. -/
def uEmptyId : LeagueUser := ⟨"", "EmptyId", none⟩

/-- A roster owned by user `"a"`. -/
def rA : Roster := ⟨1, some "a", 3, 1, 0, 100, 80, 1, 2⟩

/-- A roster with no owner. -/
def rB : Roster := ⟨2, none, 2, 2, 0, 90, 85, 2, 3⟩

/-- A roster whose owner id is the empty string. -/
def rEmptyOwner : Roster := ⟨3, some "", 1, 3, 0, 50, 60, 3, 4⟩

/-- A matchup entry for roster 1 in pairing 7. -/
def mA : Matchup := ⟨1, some 7, 10⟩

/-- A matchup entry for roster 2 in pairing 7. -/
def mB : Matchup := ⟨2, some 7, 12⟩

/-- An oracle for a cycle in which every fetch succeeds in regular season. -/
def oracleReg : FetchOracle :=
  ⟨.ok nsEx, .ok lgEx, .ok [rA], .ok [uA], fun _ => .ok [mA, mB]⟩

/-- An oracle for a cycle in which every fetch succeeds in the off-season. -/
def oracleOff : FetchOracle :=
  ⟨.ok nsOff, .ok lgEx, .ok [rA], .ok [uA], fun _ => .ok [mA, mB]⟩

/-- An oracle whose league fetch fails with a connection failure. -/
def oracleFailLeague : FetchOracle :=
  ⟨.ok nsEx, .error .connection, .ok [], .ok [], fun _ => .ok []⟩

/-- An oracle whose user fetch fails with a not-found error. -/
def oracleFailUsers : FetchOracle :=
  ⟨.ok nsEx, .ok lgEx, .ok [], .error .notFound, fun _ => .ok []⟩

/-! ### Helper lemmas -/

/-- A dict-building fold over keys all different from `k` leaves the
accumulator unchanged. -/
theorem foldlGet_eq_init {α κ β : Type} [DecidableEq κ] (key : α → κ)
    (val : α → β) (k : κ) (l : List α) (init : Option β)
    (h : ∀ a ∈ l, key a ≠ k) :
    l.foldl (fun acc a => if key a = k then some (val a) else acc) init
      = init := by
  induction l generalizing init with
  | nil => rfl
  | cons x xs ih =>
    rw [List.foldl_cons, if_neg (h x (List.mem_cons_self x xs))]
    exact ih init (fun a ha => h a (List.mem_cons_of_mem _ ha))

/-- If the element `a` is the only one of `l` carrying the key `k`, the
dict-building fold ends with `a`'s value at `k`, whatever the initial
accumulator. -/
theorem foldlGet_eq_some {α κ β : Type} [DecidableEq κ] (key : α → κ)
    (val : α → β) (k : κ) (l : List α) (init : Option β) (a : α)
    (ha : a ∈ l) (hk : key a = k) (huniq : ∀ b ∈ l, key b = k → b = a) :
    l.foldl (fun acc a => if key a = k then some (val a) else acc) init
      = some (val a) := by
  induction l generalizing init with
  | nil => exact absurd ha (List.not_mem_nil a)
  | cons x xs ih =>
    by_cases hx : key x = k
    · have hxa : x = a := huniq x (List.mem_cons_self x xs) hx
      rw [List.foldl_cons, if_pos hx]
      by_cases hmem : a ∈ xs
      · exact ih _ hmem (fun b hb hbk => huniq b (List.mem_cons_of_mem _ hb) hbk)
      · have hnone : ∀ b ∈ xs, key b ≠ k := by
          intro b hb hbk
          exact hmem ((huniq b (List.mem_cons_of_mem _ hb) hbk) ▸ hb)
        rw [foldlGet_eq_init key val k xs _ hnone, hxa]
    · have ha' : a ∈ xs := by
        rcases List.mem_cons.mp ha with h | h
        · exact absurd (h ▸ hk) hx
        · exact h
      rw [List.foldl_cons, if_neg hx]
      exact ih _ ha' (fun b hb hbk => huniq b (List.mem_cons_of_mem _ hb) hbk)

/-- A dict-building fold starting from a present value stays present. -/
theorem foldlGet_isSome {α κ β : Type} [DecidableEq κ] (key : α → κ)
    (val : α → β) (k : κ) (l : List α) (init : Option β)
    (hv : init.isSome) :
    (l.foldl (fun acc a => if key a = k then some (val a) else acc)
      init).isSome := by
  induction l generalizing init with
  | nil => exact hv
  | cons x xs ih =>
    rw [List.foldl_cons]
    by_cases hx : key x = k
    · exact ih _ (by rw [if_pos hx]; rfl)
    · exact ih _ (by rwa [if_neg hx])

/-- `pyDictGet` misses exactly when no element carries the key. -/
theorem pyDictGet_eq_none {α κ β : Type} [DecidableEq κ] (key : α → κ)
    (val : α → β) (l : List α) (k : κ) (h : ∀ a ∈ l, key a ≠ k) :
    pyDictGet key val l k = none :=
  foldlGet_eq_init key val k l none h

/-- `pyDictGet` at the key of the unique element carrying it. -/
theorem pyDictGet_eq_some {α κ β : Type} [DecidableEq κ] (key : α → κ)
    (val : α → β) (l : List α) (k : κ) (a : α) (ha : a ∈ l)
    (hk : key a = k) (huniq : ∀ b ∈ l, key b = k → b = a) :
    pyDictGet key val l k = some (val a) :=
  foldlGet_eq_some key val k l none a ha hk huniq

/-- `pyDictGet` is defined at every key carried by some element. -/
theorem pyDictGet_isSome {α κ β : Type} [DecidableEq κ] (key : α → κ)
    (val : α → β) (l : List α) (k : κ) (a : α) (ha : a ∈ l)
    (hk : key a = k) : ∃ b, pyDictGet key val l k = some b := by
  have : (pyDictGet key val l k).isSome := by
    unfold pyDictGet
    induction l with
    | nil => exact absurd ha (List.not_mem_nil a)
    | cons x xs ih =>
      rw [List.foldl_cons]
      by_cases hx : key x = k
      · exact foldlGet_isSome key val k xs _ (by rw [if_pos hx]; rfl)
      · rcases List.mem_cons.mp ha with h | h
        · exact absurd (h ▸ hk) hx
        · rw [if_neg hx]
          exact ih h
  exact Option.isSome_iff_exists.mp this

/-- `find?` over a split list whose left part contains no match: the scan
reaches `x` and then continues right. -/
theorem find?_append_cons {α : Type} (p : α → Bool) (l1 : List α) (x : α)
    (l2 : List α) (h : ∀ y ∈ l1, p y = false) :
    (l1 ++ x :: l2).find? p = if p x then some x else l2.find? p := by
  induction l1 with
  | nil =>
    by_cases hx : p x
    · simp [List.find?_cons_of_pos _ hx, hx]
    · simp [List.find?_cons_of_neg _ hx, hx]
  | cons y l1 ih =>
    have hy : ¬ p y = true := by
      simp [h y (List.mem_cons_self y l1)]
    rw [List.cons_append, List.find?_cons_of_neg _ hy]
    exact ih (fun z hz => h z (List.mem_cons_of_mem _ hz))

/-- The standings comparison is transitive. -/
theorem key_ge_trans (a b c : Roster) (hab : key_ge a b) (hbc : key_ge b c) :
    key_ge a c := by
  simp only [key_ge, decide_eq_true_eq] at *
  rcases hab with h | ⟨h1, h2⟩ <;> rcases hbc with h' | ⟨h1', h2'⟩
  · exact Or.inl (h'.trans h)
  · exact Or.inl (h1' ▸ h)
  · exact Or.inl (h1 ▸ h')
  · exact Or.inr ⟨h1.trans h1', h2'.trans h2⟩

/-- The standings comparison is total. -/
theorem key_ge_total (a b : Roster) : key_ge a b || key_ge b a := by
  simp only [key_ge, Bool.or_eq_true, decide_eq_true_eq]
  rcases lt_trichotomy a.wins b.wins with h | h | h
  · exact Or.inr (Or.inl h)
  · rcases le_total a.fpts b.fpts with hf | hf
    · exact Or.inr (Or.inr ⟨h.symm, hf⟩)
    · exact Or.inl (Or.inr ⟨h, hf⟩)
  · exact Or.inl (Or.inl h)

/-- C1: for every season type, week, and Eastern-time instant (day of week,
hour), the scheduler's interval selection
(`SleeperCoordinator._calculate_update_interval`) equals the reference
definition written from the spec: 24 h for `off` independent of time; 1 h
for season types other than `regular`/`post`; else 5 min when in a game
window (Thursday ≥ 19:00, Sunday ≥ 12:00, Monday ≥ 19:00, or Saturday
≥ 12:00 with week ≥ 15 or postseason), the window test being evaluated
before the game-day test; else 15 min on a game day (Thursday, Sunday,
Monday, or Saturday with week ≥ 15 or postseason); else 1 h. -/
theorem scheduler_interval_matches_reference (season_type : String) (week : Int)
    (d : Weekday) (hour : ℕ) :
    calculate_update_interval season_type week d.py hour
      = reference_interval season_type week d hour := by
  unfold calculate_update_interval reference_interval
  by_cases hoff : season_type = "off"
  · simp [hoff, UPDATE_INTERVAL_OFFSEASON]
  · by_cases hreg : season_type = "regular" ∨ season_type = "post"
    · rw [if_neg hoff, if_neg hoff, if_neg (not_not_intro hreg),
        if_neg (by tauto : ¬(season_type ≠ "regular" ∧ season_type ≠ "post"))]
      simp only [UPDATE_INTERVAL_GAME_WINDOW, UPDATE_INTERVAL_GAME_DAY,
        UPDATE_INTERVAL_REGULAR]
      cases d with
      | monday =>
        rw [show is_in_game_window (Weekday.monday).py hour week season_type
            = decide (19 ≤ hour) from by
          unfold is_in_game_window Weekday.py; split_ifs <;> simp_all]
        rw [show is_game_day (Weekday.monday).py week season_type = true from by
          unfold is_game_day Weekday.py; split_ifs <;> simp_all]
        by_cases hh : 19 ≤ hour <;> simp [hh]
      | tuesday =>
        rw [show is_in_game_window (Weekday.tuesday).py hour week season_type
            = false from by
          unfold is_in_game_window Weekday.py; split_ifs <;> simp_all]
        rw [show is_game_day (Weekday.tuesday).py week season_type = false from by
          unfold is_game_day Weekday.py; split_ifs <;> simp_all]
        simp
      | wednesday =>
        rw [show is_in_game_window (Weekday.wednesday).py hour week season_type
            = false from by
          unfold is_in_game_window Weekday.py; split_ifs <;> simp_all]
        rw [show is_game_day (Weekday.wednesday).py week season_type = false from by
          unfold is_game_day Weekday.py; split_ifs <;> simp_all]
        simp
      | thursday =>
        rw [show is_in_game_window (Weekday.thursday).py hour week season_type
            = decide (19 ≤ hour) from by
          unfold is_in_game_window Weekday.py; split_ifs <;> simp_all]
        rw [show is_game_day (Weekday.thursday).py week season_type = true from by
          unfold is_game_day Weekday.py; split_ifs <;> simp_all]
        by_cases hh : 19 ≤ hour <;> simp [hh]
      | friday =>
        rw [show is_in_game_window (Weekday.friday).py hour week season_type
            = false from by
          unfold is_in_game_window Weekday.py; split_ifs <;> simp_all]
        rw [show is_game_day (Weekday.friday).py week season_type = false from by
          unfold is_game_day Weekday.py; split_ifs <;> simp_all]
        simp
      | saturday =>
        rw [show is_in_game_window (Weekday.saturday).py hour week season_type
            = decide (12 ≤ hour ∧ (15 ≤ week ∨ season_type = "post")) from by
          unfold is_in_game_window Weekday.py; split_ifs <;> simp_all]
        rw [show is_game_day (Weekday.saturday).py week season_type
            = decide (15 ≤ week ∨ season_type = "post") from by
          unfold is_game_day Weekday.py; split_ifs <;> simp_all]
        by_cases hp : 15 ≤ week ∨ season_type = "post" <;>
          by_cases hh : 12 ≤ hour <;> simp [hp, hh]
      | sunday =>
        rw [show is_in_game_window (Weekday.sunday).py hour week season_type
            = decide (12 ≤ hour) from by
          unfold is_in_game_window Weekday.py; split_ifs <;> simp_all]
        rw [show is_game_day (Weekday.sunday).py week season_type = true from by
          unfold is_game_day Weekday.py; split_ifs <;> simp_all]
        by_cases hh : 12 ≤ hour <;> simp [hh]
    · rw [if_neg hoff, if_neg hoff,
        if_pos (by exact hreg : ¬(season_type = "regular" ∨ season_type = "post")),
        if_pos (by tauto : season_type ≠ "regular" ∧ season_type ≠ "post")]
      rfl

/-- C2: for every roster list, the standings produced by `SleeperData.build`
are a permutation of the input roster-id sequence; they are the roster ids
of a rearrangement of the rosters that is sorted by wins descending, then
points-for descending, and that keeps the input order of rosters with
equal keys (stable sort); and the ordering depends only on the roster list,
so the same roster list always yields the same ordering. -/
theorem build_standings_spec (nfl_state : NflState) (league : LeagueInfo)
    (rosters : List Roster) (users : List LeagueUser)
    (matchups : List Matchup) (user_id : Option String) :
    ((SleeperData.build nfl_state league rosters users matchups
        user_id).standings).Perm (rosters.map (fun r => r.roster_id))
    ∧ (∃ rs : List Roster,
        (SleeperData.build nfl_state league rosters users matchups
          user_id).standings = rs.map (fun r => r.roster_id)
        ∧ rs.Perm rosters
        ∧ rs.Pairwise (fun a b =>
            b.wins < a.wins ∨ (a.wins = b.wins ∧ b.fpts ≤ a.fpts))
        ∧ ∀ a b : Roster, List.Sublist [a, b] rosters → a.wins = b.wins →
            a.fpts = b.fpts → List.Sublist [a, b] rs)
    ∧ ∀ (ns' : NflState) (lg' : LeagueInfo) (us' : List LeagueUser)
        (ms' : List Matchup) (uid' : Option String),
        (SleeperData.build ns' lg' rosters us' ms' uid').standings
          = (SleeperData.build nfl_state league rosters users matchups
              user_id).standings := by
  refine ⟨?_, ⟨rosters.mergeSort key_ge, rfl,
    List.mergeSort_perm rosters key_ge, ?_, ?_⟩, fun _ _ _ _ _ => rfl⟩
  · exact (List.mergeSort_perm rosters key_ge).map (fun r => r.roster_id)
  · refine (@List.sorted_mergeSort Roster key_ge
      (fun a b c => key_ge_trans a b c)
      (fun a b => key_ge_total a b) rosters).imp ?_
    intro a b hab
    simpa [key_ge] using hab
  · intro a b hsub hw hf
    refine List.pair_sublist_mergeSort
      (fun a b c => key_ge_trans a b c)
      (fun a b => key_ge_total a b) ?_ hsub
    simp [key_ge, hw, hf]

/-- C3: when roster ids and user ids are unique, the roster-owner mapping of
`SleeperData.build` is defined for every input roster id; a roster whose
owner id is a present, non-empty string matched by a user maps to that
user, and a roster whose owner id is absent, empty, or unmatched maps to
the shared placeholder user, never an error. -/
theorem build_roster_owner_spec (ns : NflState) (lg : LeagueInfo)
    (rosters : List Roster) (users : List LeagueUser) (ms : List Matchup)
    (uid : Option String)
    (hr : (rosters.map (fun x => x.roster_id)).Nodup)
    (hu : (users.map (fun u => u.user_id)).Nodup) :
    (∀ r ∈ rosters, ∃ u,
      (SleeperData.build ns lg rosters users ms uid).roster_to_user
        r.roster_id = some u)
    ∧ (∀ r ∈ rosters, ∀ oid u, r.owner_id = some oid → oid ≠ "" →
        u ∈ users → u.user_id = oid →
        (SleeperData.build ns lg rosters users ms uid).roster_to_user
          r.roster_id = some u)
    ∧ (∀ r ∈ rosters,
        (r.owner_id = none ∨ r.owner_id = some "" ∨
          ∀ u ∈ users, some u.user_id ≠ r.owner_id) →
        (SleeperData.build ns lg rosters users ms uid).roster_to_user
          r.roster_id = some placeholder) := by
  have hrtu : (SleeperData.build ns lg rosters users ms uid).roster_to_user
      = pyDictGet (fun x => x.roster_id) (resolve_owner users) rosters := rfl
  have hinj := List.inj_on_of_nodup_map hr
  have hdict : ∀ r ∈ rosters,
      (SleeperData.build ns lg rosters users ms uid).roster_to_user
        r.roster_id = some (resolve_owner users r) := by
    intro r hmem
    rw [hrtu]
    exact pyDictGet_eq_some _ _ rosters r.roster_id r hmem rfl
      (fun b hb hbk => hinj hb hmem hbk)
  refine ⟨?_, ?_, ?_⟩
  · intro r hmem
    exact ⟨resolve_owner users r, hdict r hmem⟩
  · intro r hmem oid u hoid hne humem huid
    rw [hdict r hmem]
    have huinj := List.inj_on_of_nodup_map hu
    have : user_by_id users oid = some u := by
      unfold user_by_id
      exact pyDictGet_eq_some _ _ users oid u humem huid
        (fun b hb hbk => huinj hb humem (hbk.trans huid.symm))
    simp [resolve_owner, hoid, hne, this]
  · intro r hmem hcase
    rw [hdict r hmem]
    rcases hcase with h | h | h
    · simp [resolve_owner, h]
    · simp [resolve_owner, h]
    · unfold resolve_owner
      cases hoid : r.owner_id with
      | none => rfl
      | some oid =>
        by_cases hne : oid = ""
        · simp [hne]
        · have hnone : user_by_id users oid = none := by
            unfold user_by_id
            refine pyDictGet_eq_none _ _ users oid ?_
            intro u humem heq
            exact h u humem (by rw [heq, hoid])
          simp [hne, hnone]

/-- C3's witness: on a concrete league, the owned roster resolves to its
owner and the unowned roster resolves to the placeholder. -/
theorem build_roster_owner_spec_witness :
    (((([rA, rB] : List Roster).map (fun x => x.roster_id)).Nodup
        ∧ (([uA] : List LeagueUser).map (fun u => u.user_id)).Nodup)
      ∧ (SleeperData.build nsEx lgEx [rA, rB] [uA] [] none).roster_to_user
          rA.roster_id = some uA)
    ∧ (SleeperData.build nsEx lgEx [rA, rB] [uA] [] none).roster_to_user
        rB.roster_id = some placeholder :=
  ⟨⟨⟨by decide, by decide⟩,
    (build_roster_owner_spec nsEx lgEx [rA, rB] [uA] [] none (by decide)
      (by decide)).2.1 rA (by decide) "a" uA rfl (by decide) (by decide) rfl⟩,
   (build_roster_owner_spec nsEx lgEx [rA, rB] [uA] [] none (by decide)
      (by decide)).2.2 rB (by decide) (Or.inl rfl)⟩

/-- C4: with a provided (non-empty) viewer user id and unique user ids,
`SleeperData.build` sets `my_user` to the user with that id (absent when no
such user exists) and `my_roster` to the first roster in input order whose
owner id equals the viewer id (absent when none matches); with no viewer
user id both are absent. -/
theorem build_viewer_spec (ns : NflState) (lg : LeagueInfo)
    (rosters : List Roster) (users : List LeagueUser) (ms : List Matchup)
    (uid : String) (huid : uid ≠ "")
    (hu : (users.map (fun u => u.user_id)).Nodup) :
    (∀ u ∈ users, u.user_id = uid →
      (SleeperData.build ns lg rosters users ms (some uid)).my_user = some u)
    ∧ ((∀ u ∈ users, u.user_id ≠ uid) →
      (SleeperData.build ns lg rosters users ms (some uid)).my_user = none)
    ∧ (∀ l1 r l2, rosters = l1 ++ r :: l2 → r.owner_id = some uid →
        (∀ x ∈ l1, x.owner_id ≠ some uid) →
        (SleeperData.build ns lg rosters users ms (some uid)).my_roster
          = some r)
    ∧ ((∀ r ∈ rosters, r.owner_id ≠ some uid) →
      (SleeperData.build ns lg rosters users ms (some uid)).my_roster = none)
    ∧ (SleeperData.build ns lg rosters users ms none).my_user = none
    ∧ (SleeperData.build ns lg rosters users ms none).my_roster = none := by
  have hmu : (SleeperData.build ns lg rosters users ms (some uid)).my_user
      = user_by_id users uid := by
    simp [SleeperData.build, huid]
  have hmr : (SleeperData.build ns lg rosters users ms (some uid)).my_roster
      = rosters.find? (fun r => decide (r.owner_id = some uid)) := by
    simp [SleeperData.build, huid]
  have huinj := List.inj_on_of_nodup_map hu
  refine ⟨?_, ?_, ?_, ?_, rfl, rfl⟩
  · intro u humem heq
    rw [hmu]
    exact pyDictGet_eq_some _ _ users uid u humem heq
      (fun b hb hbk => huinj hb humem (hbk.trans heq.symm))
  · intro h
    rw [hmu]
    exact pyDictGet_eq_none _ _ users uid (fun u humem => h u humem)
  · intro l1 r l2 hsplit hoid hleft
    rw [hmr, hsplit]
    rw [find?_append_cons _ l1 r l2 (fun y hy => by
      simp [hleft y hy])]
    simp [hoid]
  · intro h
    rw [hmr]
    exact List.find?_eq_none.mpr (fun r hmem => by simp [h r hmem])

/-- C4's witness: with viewer id `"a"` on a concrete league, `my_user` is
Alice and `my_roster` is the first (and only) roster owned by `"a"`. -/
theorem build_viewer_spec_witness :
    (("a" : String) ≠ ""
      ∧ (([uA] : List LeagueUser).map (fun u => u.user_id)).Nodup)
    ∧ (SleeperData.build nsEx lgEx [rB, rA] [uA] [] (some "a")).my_user
        = some uA
    ∧ (SleeperData.build nsEx lgEx [rB, rA] [uA] [] (some "a")).my_roster
        = some rA :=
  ⟨⟨by decide, by decide⟩,
   (build_viewer_spec nsEx lgEx [rB, rA] [uA] [] "a" (by decide)
      (by decide)).1 uA (by decide) rfl,
   (build_viewer_spec nsEx lgEx [rB, rA] [uA] [] "a" (by decide)
      (by decide)).2.2.1 [rB] rA [] rfl rfl (by decide)⟩

/-- C5: for every snapshot whose `my_roster` is present, matchup resolution
always yields a result (never raises): it is the bye state when no matchup
entry carries my roster id, when my entry's matchup id is null, or when no
other entry shares my matchup id with a different roster id; otherwise it
reports my entry's points and the first sibling entry's points. An empty
matchup collection in particular yields the bye state. -/
theorem my_matchup_never_raises (data : SleeperData) (my : Roster)
    (h : data.my_roster = some my) :
    (∃ res, my_matchup_state data = some res)
    ∧ ((∀ m ∈ data.matchups, m.roster_id ≠ my.roster_id) →
        my_matchup_state data = some .bye)
    ∧ (∀ l1 e l2, data.matchups = l1 ++ e :: l2 →
        e.roster_id = my.roster_id →
        (∀ m ∈ l1, m.roster_id ≠ my.roster_id) →
        ((e.matchup_id = none → my_matchup_state data = some .bye)
        ∧ (∀ mid, e.matchup_id = some mid →
            (∀ m ∈ data.matchups, m.matchup_id = some mid →
              m.roster_id = my.roster_id) →
            my_matchup_state data = some .bye)
        ∧ (∀ mid s1 s s2, e.matchup_id = some mid →
            data.matchups = s1 ++ s :: s2 → s.matchup_id = some mid →
            s.roster_id ≠ my.roster_id →
            (∀ m ∈ s1, ¬(m.matchup_id = some mid ∧
              m.roster_id ≠ my.roster_id)) →
            my_matchup_state data = some (.score e.points s.points))))
    ∧ (data.matchups = [] → my_matchup_state data = some .bye) := by
  have hnofind : ∀ (hnone : ∀ m ∈ data.matchups, m.roster_id ≠ my.roster_id),
      my_matchup_state data = some .bye := by
    intro hnone
    have hn : data.matchups.find?
        (fun m => decide (m.roster_id = my.roster_id)) = none :=
      List.find?_eq_none.mpr (fun m hm => by simp [hnone m hm])
    simp [my_matchup_state, h, hn]
  refine ⟨?_, hnofind, ?_, fun hemp => hnofind (by simp [hemp])⟩
  · rcases hf : data.matchups.find?
        (fun m => decide (m.roster_id = my.roster_id)) with _ | e
    · exact ⟨.bye, by simp [my_matchup_state, h, hf]⟩
    · rcases hmid : e.matchup_id with _ | mid
      · exact ⟨.bye, by simp [my_matchup_state, h, hf, hmid]⟩
      · rcases hs : data.matchups.find?
            (fun m => decide (m.matchup_id = some mid) &&
              !decide (m.roster_id = my.roster_id)) with _ | s
        · exact ⟨.bye, by simp [my_matchup_state, h, hf, hmid, hs]⟩
        · exact ⟨.score e.points s.points,
            by simp [my_matchup_state, h, hf, hmid, hs]⟩
  · intro l1 e l2 hsplit heq hleft
    have hfind : data.matchups.find?
        (fun m => decide (m.roster_id = my.roster_id)) = some e := by
      rw [hsplit, find?_append_cons _ l1 e l2 (fun y hy => by
        simp [hleft y hy])]
      simp [heq]
    refine ⟨?_, ?_, ?_⟩
    · intro hmid
      simp [my_matchup_state, h, hfind, hmid]
    · intro mid hmid hall
      have hnone : data.matchups.find?
          (fun m => decide (m.matchup_id = some mid) &&
            !decide (m.roster_id = my.roster_id)) = none := by
        refine List.find?_eq_none.mpr (fun m hm => ?_)
        simp only [Bool.and_eq_true, Bool.not_eq_true', decide_eq_true_eq,
          decide_eq_false_iff_not, not_and, not_not]
        exact hall m hm
      simp [my_matchup_state, h, hfind, hmid, hnone]
    · intro mid s1 s s2 hmid hsplit2 hsmid hsne hsleft
      have hfs : data.matchups.find?
          (fun m => decide (m.matchup_id = some mid) &&
            !decide (m.roster_id = my.roster_id)) = some s := by
        rw [hsplit2, find?_append_cons _ s1 s s2 (fun y hy => by
          simpa using hsleft y hy)]
        simp [hsmid, hsne]
      simp [my_matchup_state, h, hfind, hmid, hfs]

/-- C5's witness: on a concrete snapshot the paired rosters resolve to a
score, and an empty matchup collection with a matching viewer resolves to
the bye state. -/
theorem my_matchup_never_raises_witness :
    ((SleeperData.build nsEx lgEx [rA] [uA] [mA, mB] (some "a")).my_roster
        = some rA
      ∧ my_matchup_state
          (SleeperData.build nsEx lgEx [rA] [uA] [mA, mB] (some "a"))
          = some (.score 10 12))
    ∧ my_matchup_state (SleeperData.build nsEx lgEx [rA] [uA] [] (some "a"))
        = some .bye :=
  ⟨⟨by decide,
    ((my_matchup_never_raises
        (SleeperData.build nsEx lgEx [rA] [uA] [mA, mB] (some "a")) rA
        (by decide)).2.2.1 [] mA [mB] rfl rfl (by decide)).2.2 7 [mA] mB []
      rfl rfl rfl (by decide) (by decide)⟩,
   (my_matchup_never_raises
      (SleeperData.build nsEx lgEx [rA] [uA] [] (some "a")) rA
      (by decide)).2.2.2 rfl⟩

/-- C6: every payload conversion is a total function; on an all-absent
payload each record gets its documented defaults (week 1, empty strings,
`off` season type, zero counts and points, absent owner and matchup ids),
null-guarded numeric fields also default to zero, and the roster's
points-for and points-against are recombined from their whole and
hundredths parts as whole + fraction/100. -/
theorem from_api_total_defaults :
    (NflState.from_api ⟨none, none, none⟩ = ⟨1, "", "off"⟩)
    ∧ (LeagueInfo.from_api ⟨none, none, none, none, none⟩ = ⟨"", "", "", "", 0⟩)
    ∧ (LeagueUser.from_api ⟨none, none, none⟩ = ⟨"", "", none⟩)
    ∧ (Matchup.from_api ⟨none, none, none⟩ = ⟨0, none, 0⟩)
    ∧ (Matchup.from_api ⟨some 5, some 9, some none⟩ = ⟨5, some 9, 0⟩)
    ∧ (Roster.from_api ⟨none, none, none⟩ = ⟨0, none, 0, 0, 0, 0, 0, 0, 0⟩)
    ∧ (Roster.from_api ⟨some 1, some "", some (some ⟨some none, some none,
        some none, some none, some none, some none, some none, some none,
        some none⟩)⟩ = ⟨1, some "", 0, 0, 0, 0, 0, 0, 0⟩)
    ∧ (∀ (w f wa fa : Int) (rid : Option Int) (oid : Option String)
        (wn ls ts wp tm : Option (Option Int)),
        Roster.from_api ⟨rid, oid, some (some ⟨wn, ls, ts, some (some w),
          some (some f), some (some wa), some (some fa), wp, tm⟩)⟩
          = ⟨rid.getD 0, oid, orZero wn, orZero ls, orZero ts,
             (w : ℚ) + (f : ℚ) / 100, (wa : ℚ) + (fa : ℚ) / 100,
             orZero wp, orZero tm⟩) := by
  refine ⟨?_, ?_, ?_, ?_, ?_, ?_, ?_,
    fun w f wa fa rid oid wn ls ts wp tm => ?_⟩
  · rfl
  · rfl
  · rfl
  · simp [Matchup.from_api, orZeroQ]
  · simp [Matchup.from_api, orZeroQ]
  · simp [Roster.from_api, RosterSettingsPayload.empty, orZero]
  · simp [Roster.from_api, orZero]
  · simp [Roster.from_api, orZero]

/-- C7: a refresh cycle in which any fetch fails with either error kind
yields the single uniform update-failed signal: no snapshot is produced
and the coordinator's stored update interval is left unchanged. -/
theorem fetch_failure_aborts (o : FetchOracle) (user_id : Option String)
    (day_of_week hour cur : ℕ)
    (h : (∃ e, o.nfl_state = .error e) ∨ (∃ e, o.league = .error e) ∨
      (∃ e, o.rosters = .error e) ∨ (∃ e, o.users = .error e) ∨
      (∃ ns e, o.nfl_state = .ok ns ∧
        (ns.season_type = "regular" ∨ ns.season_type = "post") ∧
        o.matchups ns.week = .error e)) :
    async_update_data o user_id day_of_week hour cur
      = (.error .updateFailed, cur) := by
  unfold async_update_data
  rcases h with ⟨e, he⟩ | ⟨e, he⟩ | ⟨e, he⟩ | ⟨e, he⟩ | ⟨ns, e, hns, hst, hm⟩
  · simp [he]
  · cases hA : o.nfl_state <;> simp [hA, he]
  · cases hA : o.nfl_state <;> cases hB : o.league <;> simp [hA, hB, he]
  · cases hA : o.nfl_state <;> cases hB : o.league <;>
      cases hC : o.rosters <;> simp [hA, hB, hC, he]
  · rw [hns]
    cases hB : o.league <;> cases hC : o.rosters <;> cases hD : o.users <;>
      simp [hB, hC, hD, if_pos hst, hm]

/-- C7's witness: a failed league fetch (connection kind) and a failed user
fetch (not-found kind) both abort the cycle and keep the stored interval. -/
theorem fetch_failure_aborts_witness :
    async_update_data oracleFailLeague none 0 0 60
      = (.error .updateFailed, 60)
    ∧ async_update_data oracleFailUsers none 0 0 45
      = (.error .updateFailed, 45) :=
  ⟨fetch_failure_aborts oracleFailLeague none 0 0 60
      (Or.inr (Or.inl ⟨.connection, rfl⟩)),
   fetch_failure_aborts oracleFailUsers none 0 0 45
      (Or.inr (Or.inr (Or.inr (Or.inl ⟨.notFound, rfl⟩))))⟩

/-- C8: on a cycle whose first four fetches succeed, the matchup collection
is fetched for the fetched season state's week exactly when the season
type is `regular` or `post` (the cycle's outcome then depends on that
fetch's result); for any other season type the matchup fetch is skipped —
the outcome is independent of the matchup oracle — and the snapshot is
built with an empty matchup collection. -/
theorem matchups_fetched_iff_active (o : FetchOracle) (user_id : Option String)
    (day_of_week hour cur : ℕ) (ns : NflState) (lg : LeagueInfo)
    (rs : List Roster) (us : List LeagueUser)
    (hns : o.nfl_state = .ok ns) (hlg : o.league = .ok lg)
    (hrs : o.rosters = .ok rs) (hus : o.users = .ok us) :
    ((ns.season_type = "regular" ∨ ns.season_type = "post") →
      (∀ ms, o.matchups ns.week = .ok ms →
        async_update_data o user_id day_of_week hour cur
          = (.ok (SleeperData.build ns lg rs us ms user_id),
             calculate_update_interval ns.season_type ns.week day_of_week
               hour))
      ∧ (∀ e, o.matchups ns.week = .error e →
        async_update_data o user_id day_of_week hour cur
          = (.error .updateFailed, cur)))
    ∧ (¬(ns.season_type = "regular" ∨ ns.season_type = "post") →
      async_update_data o user_id day_of_week hour cur
        = (.ok (SleeperData.build ns lg rs us [] user_id),
           calculate_update_interval ns.season_type ns.week day_of_week hour)
      ∧ ∀ f : Int → Except SleeperApiError (List Matchup),
          async_update_data
            { nfl_state := o.nfl_state, league := o.league,
              rosters := o.rosters, users := o.users, matchups := f }
            user_id day_of_week hour cur
            = async_update_data o user_id day_of_week hour cur) := by
  constructor
  · intro hst
    constructor
    · intro ms hms
      unfold async_update_data
      rw [hns, hlg, hrs, hus]
      simp [if_pos hst, hms]
    · intro e hm
      unfold async_update_data
      rw [hns, hlg, hrs, hus]
      simp [if_pos hst, hm]
  · intro hst
    constructor
    · unfold async_update_data
      rw [hns, hlg, hrs, hus]
      simp [if_neg hst]
    · intro f
      unfold async_update_data
      rw [hns, hlg, hrs, hus]
      simp [if_neg hst]

/-- C8's witness: a regular-season cycle builds the snapshot with the
fetched matchups; an off-season cycle builds it with an empty matchup
collection. -/
theorem matchups_fetched_iff_active_witness :
    async_update_data oracleReg (some "a") 6 13 60
      = (.ok (SleeperData.build nsEx lgEx [rA] [uA] [mA, mB] (some "a")),
         calculate_update_interval nsEx.season_type nsEx.week 6 13)
    ∧ async_update_data oracleOff (some "a") 6 13 60
      = (.ok (SleeperData.build nsOff lgEx [rA] [uA] [] (some "a")),
         calculate_update_interval nsOff.season_type nsOff.week 6 13) :=
  ⟨((matchups_fetched_iff_active oracleReg (some "a") 6 13 60 nsEx lgEx [rA]
      [uA] rfl rfl rfl rfl).1 (Or.inl rfl)).1 [mA, mB] rfl,
   ((matchups_fetched_iff_active oracleOff (some "a") 6 13 60 nsOff lgEx [rA]
      [uA] rfl rfl rfl rfl).2 (by decide)).1⟩

/-- C9: an empty-string viewer user id is treated exactly like an absent
one by `SleeperData.build` — the whole snapshot is the same and `my_user`
and `my_roster` are absent, whatever rosters and users are supplied — and
the coordinator normalizes an absent or empty configured user id to
absent. -/
theorem empty_viewer_like_absent :
    (∀ (ns : NflState) (lg : LeagueInfo) (rosters : List Roster)
        (users : List LeagueUser) (ms : List Matchup),
      SleeperData.build ns lg rosters users ms (some "")
        = SleeperData.build ns lg rosters users ms none
      ∧ (SleeperData.build ns lg rosters users ms (some "")).my_user = none
      ∧ (SleeperData.build ns lg rosters users ms (some "")).my_roster = none)
    ∧ coordinator_user_id (some "") = none
    ∧ coordinator_user_id none = none := by
  refine ⟨fun ns lg rosters users ms => ⟨rfl, rfl, rfl⟩, rfl, rfl⟩

/-- C10: a roster whose owner id is the empty string resolves to the
placeholder user in the roster-owner mapping, even when the user list
contains a user whose user id is the empty string. -/
theorem empty_owner_resolves_placeholder (ns : NflState) (lg : LeagueInfo)
    (rosters : List Roster) (users : List LeagueUser) (ms : List Matchup)
    (uid : Option String) (r : Roster)
    (hr : (rosters.map (fun x => x.roster_id)).Nodup)
    (hmem : r ∈ rosters) (hoid : r.owner_id = some "") :
    (SleeperData.build ns lg rosters users ms uid).roster_to_user r.roster_id
      = some placeholder := by
  have hinj := List.inj_on_of_nodup_map hr
  have hdict : (SleeperData.build ns lg rosters users ms uid).roster_to_user
      r.roster_id = some (resolve_owner users r) :=
    pyDictGet_eq_some _ _ rosters r.roster_id r hmem rfl
      (fun b hb hbk => hinj hb hmem hbk)
  rw [hdict]
  simp [resolve_owner, hoid]

/-- C10's witness: the empty-owner roster maps to the placeholder even
though a user with the empty user id is in the league. -/
theorem empty_owner_resolves_placeholder_witness :
    ((([rEmptyOwner] : List Roster).map (fun x => x.roster_id)).Nodup
      ∧ rEmptyOwner ∈ ([rEmptyOwner] : List Roster)
      ∧ rEmptyOwner.owner_id = some "")
    ∧ (SleeperData.build nsEx lgEx [rEmptyOwner] [uEmptyId] []
        none).roster_to_user rEmptyOwner.roster_id = some placeholder :=
  ⟨⟨by decide, by decide, rfl⟩,
   empty_owner_resolves_placeholder nsEx lgEx [rEmptyOwner] [uEmptyId] []
     none rEmptyOwner (by decide) (by decide) rfl⟩

end Sleeper
